import Mathlib

/-!
Verification development for the tezos-reward-distributor core pipeline
(`src/main.py`): a producer thread (cycle scanner) that computes payment
items per reward cycle and enqueues them, and consumer threads (payment
executors) that invoke an external transfer command and record completion
as marker files.

The embedding is a shallow one: one iteration of the producer's `while`
loop body (`ProducerThread.run`, lines 64-176) and one iteration of the
consumer's loop body (`ConsumerThread.run`, lines 199-241) become pure
functions over an explicit state (scanner cycle counter, the job queue as
a list, the filesystem as lists of file and directory paths).  Externals
that are not part of this file's code (the TzScan APIs, the reward and
payment calculators, the fee calculator, the exit status of the external
transfer command) enter as parameters of an environment record.  Python
floats are modelled as exact rationals; the claims under study only pass
monetary amounts through or compare them with zero.  Side effects (log
lines, report rows, queue puts, marker writes, transfer invocations) are
recorded as an explicit event trace so that ordering properties can be
stated.
-/

namespace TRD

/-- Monetary amounts (Python floats) modelled as exact rationals. -/
abbrev Money := ℚ

/-- A payment item, the dict built by the payment calculator
(`{'payment': .., 'fee': .., 'address': .., 'cycle': .., 'type': ..,
'ratio': .., 'reward': ..}`).  The exit sentinel's Python `address`/`cycle`
are the int 0; here the address is the string "0" (it is only ever
interpolated into a command string). -/
structure PaymentItem where
  payment : Money
  fee : Money
  address : String
  cycle : Int
  type : String
  ratio : Money
  reward : Money
deriving DecidableEq, Repr

/-- `EXIT_PAYMENT_TYPE = "exit"` (main.py line 33). -/
def EXIT_PAYMENT_TYPE : String := "exit"

/-- `BUF_SIZE = 50` (main.py line 22), the job queue capacity. -/
def BUF_SIZE : Nat := 50

/-- `NB_CONSUMERS = 1` (main.py line 21). -/
def NB_CONSUMERS : Nat := 1

/-- `RunMode` enum (main.py lines 27-30). -/
inductive RunMode
  | FOREVER
  | PENDING
  | ONETIME
deriving DecidableEq, Repr

/-- `ProducerThread.create_exit_payment` (main.py lines 181-182). -/
def create_exit_payment : PaymentItem :=
  { payment := 0, fee := 0, address := "0", cycle := 0,
    type := EXIT_PAYMENT_TYPE, ratio := 0, reward := 0 }

/-- `payment_dir_c` (main.py lines 252-253): `pymnt_dir + "/" + str(pymnt_cycle)`. -/
def payment_dir_c (pymnt_dir : String) (pymnt_cycle : Int) : String :=
  pymnt_dir ++ "/" ++ toString pymnt_cycle

/-- `payment_file_name` (main.py lines 248-249):
`payment_dir_c(...) + "/" + pymnt_addr + '_' + pymnt_type + '.txt'`. -/
def payment_file_name (pymnt_dir : String) (pymnt_cycle : Int)
    (pymnt_addr pymnt_type : String) : String :=
  payment_dir_c pymnt_dir pymnt_cycle ++ "/" ++ pymnt_addr ++ "_" ++ pymnt_type ++ ".txt"

/-- The observable side effects of one loop iteration, in program order. -/
inductive Event
  | fetchRewards (cycle : Int)
  | calcRewards (cycle : Int)
  | calcPayments (cycle : Int)
  | reportOpen (path : String)
  | reportOpenFailed (path : String)
  | reportHeader (path : String)
  | reportRow (path : String) (address ty : String)
      (ratio reward fee_rate payment fee : Money)
  | reportClose (path : String)
  | skipMarked (path : String)
  | enqueue (item : PaymentItem)
  | invokeTransfer (amount : Money) (key addr : String)
  | writeMarker (path : String)
  | warnLogged (msg : String)
  | errorLogged (msg : String)
deriving DecidableEq, Repr

/-- The filesystem as the sets (lists) of existing file and directory paths. -/
structure FS where
  files : List String
  dirs : List String
deriving DecidableEq, Repr

/-- The producer's mutable state: its cycle counter `payment_cycle` and the
shared `payments_queue` (FIFO, head = next to dequeue). -/
structure ScanState where
  payment_cycle : Int
  queue : List PaymentItem
deriving DecidableEq, Repr

/-- The producer's construction-time configuration (main.py lines 38-51). -/
structure ScanCfg where
  payments_dir : String
  reports_dir : String
  run_mode : RunMode
  baking_address : String
deriving Repr

/-- The external world for one producer iteration: chain state from
`TzScanBlockApi`, and the repository components not in `src/`
(`TzScanRewardApi`/`TzScanRewardCalculator` summarised by `total_rewards`,
`PaymentCalculator.calculate` by `payments`, `ServiceFeeCalculator.calculate`
by `fee_rate`), plus whether the report file open succeeds and whether the
lifecycle flag drops during the end-of-cycle wait. -/
structure ScanEnv where
  current_cycle : Int
  nb_freeze_cycle : Int
  total_rewards : Int → Money
  payments : Int → List PaymentItem
  fee_rate : String → Money
  report_open_ok : Bool
  stopped_during_wait : Bool

/-- Result of one producer loop iteration: the new state, the event trace of
the iteration, and whether the thread returned during it. -/
structure IterResult where
  state : ScanState
  events : List Event
  halted : Bool
deriving DecidableEq, Repr

/-- The `for payment_item in payments` loop (main.py lines 113-136): write the
csv row, then enqueue the item unless its marker file is already present
(in which case a warning is logged).  Returns the queue after the loop and
the loop's event trace. -/
def enqueueLoop (cfg : ScanCfg) (env : ScanEnv) (fs : FS) (c : Int) (rp : String) :
    List PaymentItem → List PaymentItem → List PaymentItem × List Event
  | [], q => (q, [])
  | item :: rest, q =>
    let row := Event.reportRow rp item.address item.type item.ratio item.reward
        (env.fee_rate item.address) item.payment item.fee
    let pymt_log := payment_file_name cfg.payments_dir c item.address item.type
    if pymt_log ∈ fs.files then
      let r := enqueueLoop cfg env fs c rp rest q
      (r.1, row :: Event.skipMarked pymt_log :: r.2)
    else
      let r := enqueueLoop cfg env fs c rp rest (q ++ [item])
      (r.1, row :: Event.enqueue item :: r.2)

/-- The `try` block of a payable, queue-not-full iteration (main.py lines
85-148): fetch and total the rewards; if zero, advance the cycle; otherwise
run the payment calculator, open the report (an open failure is caught by
the `except` at line 147, leaving the state untouched), write header and
baker row, run the enqueue loop, close the report, advance the cycle, and
in ONETIME mode enqueue the exit sentinel and return. -/
def processCycle (cfg : ScanCfg) (env : ScanEnv) (fs : FS) (s : ScanState) : IterResult :=
  let c := s.payment_cycle
  let total := env.total_rewards c
  if total = 0 then
    { state := { payment_cycle := c + 1, queue := s.queue },
      events := [Event.fetchRewards c, Event.calcRewards c],
      halted := false }
  else
    let rp := cfg.reports_dir ++ "/" ++ toString c ++ ".csv"
    if env.report_open_ok then
      let r := enqueueLoop cfg env fs c rp (env.payments c) s.queue
      let evs := [Event.fetchRewards c, Event.calcRewards c, Event.calcPayments c,
          Event.reportOpen rp, Event.reportHeader rp,
          Event.reportRow rp cfg.baking_address "B" 1 total 0 total 0]
          ++ r.2 ++ [Event.reportClose rp]
      if cfg.run_mode = RunMode.ONETIME then
        { state := { payment_cycle := c + 1, queue := r.1 ++ [create_exit_payment] },
          events := evs ++ [Event.enqueue create_exit_payment],
          halted := true }
      else
        { state := { payment_cycle := c + 1, queue := r.1 },
          events := evs,
          halted := false }
    else
      { state := s,
        events := [Event.fetchRewards c, Event.calcRewards c, Event.calcPayments c,
          Event.reportOpenFailed rp, Event.errorLogged "Error at reward calculation"],
        halted := false }

/-- One iteration of the producer's `while lifeCycle.is_running()` body
(main.py lines 64-176), entered with the lifecycle flag up:
if the payment directory for the candidate cycle exists, warn and advance;
else if the cycle is payable (`payment_cycle <= current_cycle -
(NB_FREEZE_CYCLE + 1)`, line 83) and the queue is not full, run the try
block; if the queue is full, back off; if not payable, in PENDING mode
enqueue the sentinel and stop, otherwise wait block-by-block (enqueueing a
sentinel if the lifecycle flag drops during the wait). -/
def producerIter (cfg : ScanCfg) (env : ScanEnv) (fs : FS) (s : ScanState) : IterResult :=
  if payment_dir_c cfg.payments_dir s.payment_cycle ∈ fs.dirs then
    { state := { payment_cycle := s.payment_cycle + 1, queue := s.queue },
      events := [Event.warnLogged "Payment directory for cycle is present. No payment will be run for the cycle"],
      halted := false }
  else if s.payment_cycle ≤ env.current_cycle - (env.nb_freeze_cycle + 1) then
    if s.queue.length < BUF_SIZE then
      processCycle cfg env fs s
    else
      { state := s, events := [], halted := false }
  else if cfg.run_mode = RunMode.PENDING then
    { state := { payment_cycle := s.payment_cycle, queue := s.queue ++ [create_exit_payment] },
      events := [Event.enqueue create_exit_payment], halted := true }
  else if env.stopped_during_wait then
    { state := { payment_cycle := s.payment_cycle, queue := s.queue ++ [create_exit_payment] },
      events := [Event.enqueue create_exit_payment], halted := false }
  else
    { state := s, events := [], halted := false }

/-- The consumer's construction-time configuration (main.py lines 186-192).
The transfer command template is not modelled textually; the
`invokeTransfer` event records the interpolated (amount, key, address). -/
structure ConsCfg where
  payments_dir : String
  key_name : String
deriving Repr

/-- Result of one consumer loop iteration: the filesystem afterwards, the
event trace, and whether the loop continues. -/
structure ConsResult where
  fs : FS
  events : List Event
  looping : Bool
deriving DecidableEq, Repr

/-- Create-or-truncate semantics of `open(path, 'w')` on a set of files. -/
def insertFile (files : List String) (path : String) : List String :=
  if path ∈ files then files else files ++ [path]

/-- `os.makedirs` semantics on a set of directories. -/
def insertDir (dirs : List String) (d : String) : List String :=
  if d ∈ dirs then dirs else dirs ++ [d]

/-- One iteration of the consumer's loop body after a successful dequeue
(main.py lines 202-239): on the exit sentinel, break; otherwise invoke the
external transfer command (exit status `returncode`, an environment input);
on status zero create the marker directory and empty marker file, else log a
warning and write nothing. -/
def consumerStep (cfg : ConsCfg) (fs : FS) (item : PaymentItem) (returncode : Int) :
    ConsResult :=
  if item.type = EXIT_PAYMENT_TYPE then
    { fs := fs, events := [], looping := false }
  else
    let ev := Event.invokeTransfer item.payment cfg.key_name item.address
    if returncode = 0 then
      let pymt_log := payment_file_name cfg.payments_dir item.cycle item.address item.type
      { fs := { files := insertFile fs.files pymt_log,
                dirs := insertDir fs.dirs (payment_dir_c cfg.payments_dir item.cycle) },
        events := [ev, Event.writeMarker pymt_log],
        looping := true }
    else
      { fs := fs,
        events := [ev, Event.warnLogged "Reward NOT paid: Reason client failed!"],
        looping := true }

/-- A consumer draining a queue prefix: repeated `consumerStep`, stopping when
an iteration breaks the loop (exit sentinel).  `rc` gives the external
command's exit status for each item. -/
def consumerRun (cfg : ConsCfg) (rc : PaymentItem → Int) :
    FS → List PaymentItem → FS × List Event
  | fs, [] => (fs, [])
  | fs, item :: rest =>
    let r := consumerStep cfg fs item (rc item)
    if r.looping then
      let rr := consumerRun cfg rc r.fs rest
      (rr.1, r.events ++ rr.2)
    else
      (r.fs, r.events)

/-- The command-line arguments that reach `main` (main.py lines 316-332).
`argparse` restricts `run_mode` to the three enum values. -/
structure Args where
  key : String
  network : String
  payments_dir : String
  reports_dir : String
  dry_run : Bool
  run_mode : RunMode
  initial_cycle : Option Int
deriving Repr

/-- The system configuration that exists once `main` has started its threads
(main.py lines 262-307): the consumer count (0 in dry-run), the effective
reports directory ("./dry" in dry-run), and the names of the started
threads. -/
structure SystemCfg where
  nb_consumers : Nat
  reports_dir : String
  payments_dir : String
  key_name : String
  run_mode : RunMode
  producer_name : String
  consumer_names : List String
deriving DecidableEq, Repr

/-- `validate_map_share_sum` (main.py lines 257-259): raise unless the map's
values sum to 1.  Shares are modelled as exact rationals. -/
def validate_map_share_sum (map : List (String × ℚ)) (map_name : String) :
    Except String Unit :=
  if (map.map Prod.snd).sum ≠ 1 then
    Except.error ("Map '" ++ map_name ++ "' shares does not sum up to 1!")
  else
    Except.ok ()

/-- `main` up to thread start (main.py lines 262-307): validate the founders
and owners share maps (a raised exception aborts before any thread exists,
so the error case carries no `SystemCfg`); in dry-run mode force the
consumer count to 0 and the reports directory to "./dry"; then record the
producer and the `range(NB_CONSUMERS)` consumers that get started. -/
def mainSetup (args : Args) (founders_map owners_map : List (String × ℚ)) :
    Except String SystemCfg :=
  match validate_map_share_sum founders_map "founders map" with
  | Except.error e => Except.error e
  | Except.ok _ =>
    match validate_map_share_sum owners_map "owners map" with
    | Except.error e => Except.error e
    | Except.ok _ =>
      let nb_consumers := if args.dry_run then 0 else NB_CONSUMERS
      let reports_dir := if args.dry_run then "./dry" else args.reports_dir
      Except.ok
        { nb_consumers := nb_consumers,
          reports_dir := reports_dir,
          payments_dir := args.payments_dir,
          key_name := args.key,
          run_mode := args.run_mode,
          producer_name := "producer",
          consumer_names := (List.range nb_consumers).map (fun i => "consumer" ++ toString i) }

/-- The concatenated event traces of all started consumers of a run, each
consumer `i` draining its share `jobs i` of the queue.  Transfers are
invoked and markers written only inside `consumerStep`, so this list holds
every `invokeTransfer` and `writeMarker` event of a run. -/
def allConsumerEvents (scfg : SystemCfg) (jobs : Nat → List PaymentItem)
    (rc : PaymentItem → Int) (fs : FS) : List Event :=
  (List.range scfg.nb_consumers).flatMap
    (fun i => (consumerRun { payments_dir := scfg.payments_dir, key_name := scfg.key_name }
        rc fs (jobs i)).2)

/-- Concrete payment item for "addrA" of cycle 5 (end-to-end scenario B). -/
def itemA : PaymentItem :=
  { payment := 54, fee := 6, address := "addrA", cycle := 5, type := "D", ratio := 1, reward := 60 }

/-- Concrete payment item for "addrB" of cycle 5 (end-to-end scenario B). -/
def itemB : PaymentItem :=
  { payment := 36, fee := 4, address := "addrB", cycle := 5, type := "D", ratio := 1, reward := 40 }

/-- Concrete scanner configuration, run mode FOREVER. -/
def cfgB : ScanCfg :=
  { payments_dir := "./payments", reports_dir := "./reports",
    run_mode := RunMode.FOREVER, baking_address := "baker" }

/-- Concrete scanner configuration, run mode ONETIME. -/
def cfgD : ScanCfg := { cfgB with run_mode := RunMode.ONETIME }

/-- Concrete environment: cycle 5 is exactly at the payable boundary of
current cycle 12 with 6 freeze cycles, total reward 100, calculator output
[itemA, itemB] for cycle 5. -/
def envB : ScanEnv :=
  { current_cycle := 12, nb_freeze_cycle := 6,
    total_rewards := fun _ => 100,
    payments := fun c => if c = 5 then [itemA, itemB] else [],
    fee_rate := fun _ => 0,
    report_open_ok := true,
    stopped_during_wait := false }

/-- `envB` with zero total rewards for every cycle. -/
def envZ : ScanEnv := { envB with total_rewards := fun _ => 0 }

/-- Concrete filesystem: the ledger marker for (cycle 5, addrA, "D") exists. -/
def fsB : FS :=
  { files := [payment_file_name "./payments" 5 "addrA" "D"], dirs := [] }

/-- Concrete empty filesystem. -/
def fs0 : FS := { files := [], dirs := [] }

/-- Concrete scanner state at candidate cycle 5 with an empty queue. -/
def sB : ScanState := { payment_cycle := 5, queue := [] }

/-- Concrete payment item for cycle 10. -/
def item9 : PaymentItem :=
  { payment := 90, fee := 10, address := "addrC", cycle := 10, type := "D", ratio := 1, reward := 100 }

/-- Concrete environment for cycle 10 (payable at current cycle 17). -/
def env9 : ScanEnv :=
  { current_cycle := 17, nb_freeze_cycle := 6,
    total_rewards := fun _ => 100,
    payments := fun c => if c = 10 then [item9] else [],
    fee_rate := fun _ => 0,
    report_open_ok := true,
    stopped_during_wait := false }

/-- Concrete filesystem in which the report directory "./reports/10" for
candidate cycle 10 exists (and nothing else). -/
def fs9 : FS := { files := [], dirs := ["./reports/10"] }

/-- Concrete scanner state at candidate cycle 10. -/
def s9 : ScanState := { payment_cycle := 10, queue := [] }

/-- Concrete filesystem in which the payments directory "./payments/7" for
candidate cycle 7 exists. -/
def fsP : FS := { files := [], dirs := ["./payments/7"] }

/-- Concrete scanner state at candidate cycle 7. -/
def sP : ScanState := { payment_cycle := 7, queue := [] }

/-- Concrete consumer configuration. -/
def ccfgW : ConsCfg := { payments_dir := "./payments", key_name := "key" }

/-- Concrete command-line arguments without the dry-run flag. -/
def argsW : Args :=
  { key := "key", network := "MAINNET", payments_dir := "./payments",
    reports_dir := "./reports", dry_run := false, run_mode := RunMode.FOREVER,
    initial_cycle := none }

/-- `argsW` with the dry-run flag set. -/
def argsD : Args := { argsW with dry_run := true }

/-- A founders map whose shares sum to 2, not 1. -/
def fmBad : List (String × ℚ) := [("f1", 2)]

/-- A founders map whose shares sum to 1. -/
def fmGood : List (String × ℚ) := [("f1", 1)]

/-- An owners map whose shares sum to 1. -/
def omGood : List (String × ℚ) := [("o1", 1)]

/-- The system configuration `mainSetup` produces for `argsD` (dry run). -/
def cfgDry : SystemCfg :=
  { nb_consumers := 0, reports_dir := "./dry", payments_dir := "./payments",
    key_name := "key", run_mode := RunMode.FOREVER, producer_name := "producer",
    consumer_names := [] }

/-- The queue after the enqueue loop: the initial queue followed by exactly
those calculator items whose marker file does not already exist. -/
theorem enqueueLoop_queue (cfg : ScanCfg) (env : ScanEnv) (fs : FS) (c : Int) (rp : String)
    (items q : List PaymentItem) :
    (enqueueLoop cfg env fs c rp items q).1 =
      q ++ items.filter
        (fun it => decide (payment_file_name cfg.payments_dir c it.address it.type ∉ fs.files)) := by
  induction items generalizing q with
  | nil => simp [enqueueLoop]
  | cons item rest ih =>
    by_cases h : payment_file_name cfg.payments_dir c item.address item.type ∈ fs.files
    · simp [enqueueLoop, h, ih]
    · simp [enqueueLoop, h, ih]

/-- An enqueue event occurs in the loop trace exactly for the unmarked items. -/
theorem enqueueLoop_enqueue_mem (cfg : ScanCfg) (env : ScanEnv) (fs : FS) (c : Int) (rp : String)
    (items q : List PaymentItem) (x : PaymentItem) :
    Event.enqueue x ∈ (enqueueLoop cfg env fs c rp items q).2 ↔
      x ∈ items ∧ payment_file_name cfg.payments_dir c x.address x.type ∉ fs.files := by
  induction items generalizing q with
  | nil => simp [enqueueLoop]
  | cons item rest ih =>
    by_cases h : payment_file_name cfg.payments_dir c item.address item.type ∈ fs.files
    · simp only [enqueueLoop, if_pos h]
      constructor
      · intro hmem
        rcases List.mem_cons.mp hmem with heq | hmem2
        · exact Event.noConfusion heq
        · rcases List.mem_cons.mp hmem2 with heq | hmem3
          · exact Event.noConfusion heq
          · rcases (ih q).mp hmem3 with ⟨hx, hnm⟩
            exact ⟨List.mem_cons_of_mem _ hx, hnm⟩
      · rintro ⟨hx, hnm⟩
        rcases List.mem_cons.mp hx with rfl | hx'
        · exact absurd h hnm
        · exact List.mem_cons_of_mem _ (List.mem_cons_of_mem _ ((ih q).mpr ⟨hx', hnm⟩))
    · simp only [enqueueLoop, if_neg h]
      constructor
      · intro hmem
        rcases List.mem_cons.mp hmem with heq | hmem2
        · exact Event.noConfusion heq
        · rcases List.mem_cons.mp hmem2 with heq | hmem3
          · injection heq with h2
            subst h2
            exact ⟨List.mem_cons_self _ _, h⟩
          · rcases (ih _).mp hmem3 with ⟨hx, hnm⟩
            exact ⟨List.mem_cons_of_mem _ hx, hnm⟩
      · rintro ⟨hx, hnm⟩
        rcases List.mem_cons.mp hx with rfl | hx'
        · exact List.mem_cons_of_mem _ (List.mem_cons_self _ _)
        · exact List.mem_cons_of_mem _ (List.mem_cons_of_mem _ ((ih _).mpr ⟨hx', hnm⟩))

/-- A marked item produces its skip warning in the loop trace. -/
theorem enqueueLoop_skip_mem (cfg : ScanCfg) (env : ScanEnv) (fs : FS) (c : Int) (rp : String)
    (items q : List PaymentItem) (x : PaymentItem)
    (hx : x ∈ items)
    (h : payment_file_name cfg.payments_dir c x.address x.type ∈ fs.files) :
    Event.skipMarked (payment_file_name cfg.payments_dir c x.address x.type)
      ∈ (enqueueLoop cfg env fs c rp items q).2 := by
  induction items generalizing q with
  | nil => simp at hx
  | cons item rest ih =>
    rcases List.mem_cons.mp hx with rfl | hx'
    · simp [enqueueLoop, h]
    · by_cases hi : payment_file_name cfg.payments_dir c item.address item.type ∈ fs.files
      · simp only [enqueueLoop, if_pos hi]
        exact List.mem_cons_of_mem _ (List.mem_cons_of_mem _ (ih _ hx'))
      · simp only [enqueueLoop, if_neg hi]
        exact List.mem_cons_of_mem _ (List.mem_cons_of_mem _ (ih _ hx'))

/-- The loop trace holds only report rows, skip warnings and enqueues. -/
theorem enqueueLoop_events_shape (cfg : ScanCfg) (env : ScanEnv) (fs : FS) (c : Int) (rp : String)
    (items q : List PaymentItem) (e : Event) (he : e ∈ (enqueueLoop cfg env fs c rp items q).2) :
    (∃ a t r w f p fe, e = Event.reportRow rp a t r w f p fe)
    ∨ (∃ p, e = Event.skipMarked p)
    ∨ (∃ it, e = Event.enqueue it) := by
  induction items generalizing q with
  | nil => simp [enqueueLoop] at he
  | cons item rest ih =>
    by_cases h : payment_file_name cfg.payments_dir c item.address item.type ∈ fs.files
    · simp only [enqueueLoop, if_pos h] at he
      rcases List.mem_cons.mp he with rfl | he2
      · exact Or.inl ⟨_, _, _, _, _, _, _, rfl⟩
      · rcases List.mem_cons.mp he2 with rfl | he3
        · exact Or.inr (Or.inl ⟨_, rfl⟩)
        · exact ih _ he3
    · simp only [enqueueLoop, if_neg h] at he
      rcases List.mem_cons.mp he with rfl | he2
      · exact Or.inl ⟨_, _, _, _, _, _, _, rfl⟩
      · rcases List.mem_cons.mp he2 with rfl | he3
        · exact Or.inr (Or.inr ⟨_, rfl⟩)
        · exact ih _ he3

/-- Under the guards of main.py lines 72, 83 and 84 (payment directory
absent, cycle payable, queue not full) the iteration runs the try block. -/
theorem producerIter_process (cfg : ScanCfg) (env : ScanEnv) (fs : FS) (s : ScanState)
    (hdir : payment_dir_c cfg.payments_dir s.payment_cycle ∉ fs.dirs)
    (hpay : s.payment_cycle ≤ env.current_cycle - (env.nb_freeze_cycle + 1))
    (hq : s.queue.length < BUF_SIZE) :
    producerIter cfg env fs s = processCycle cfg env fs s := by
  simp [producerIter, hdir, hpay, hq]

/-- No reward fetch happens inside the enqueue loop. -/
theorem enqueueLoop_no_fetch (cfg : ScanCfg) (env : ScanEnv) (fs : FS) (c : Int) (rp : String)
    (items q : List PaymentItem) (c' : Int) :
    Event.fetchRewards c' ∉ (enqueueLoop cfg env fs c rp items q).2 := by
  induction items generalizing q with
  | nil => simp [enqueueLoop]
  | cons item rest ih =>
    by_cases h : payment_file_name cfg.payments_dir c item.address item.type ∈ fs.files
    · simp [enqueueLoop, h, ih]
    · simp [enqueueLoop, h, ih]

/-- The only cycle whose rewards the try block fetches is the candidate one. -/
theorem processCycle_fetch_cycle (cfg : ScanCfg) (env : ScanEnv) (fs : FS) (s : ScanState)
    (c : Int) (hc : Event.fetchRewards c ∈ (processCycle cfg env fs s).events) :
    c = s.payment_cycle := by
  unfold processCycle at hc
  by_cases ht : env.total_rewards s.payment_cycle = 0
  · rw [if_pos ht] at hc
    simp at hc
    exact hc
  · rw [if_neg ht] at hc
    by_cases hr : env.report_open_ok
    · rw [if_pos hr] at hc
      by_cases hm : cfg.run_mode = RunMode.ONETIME
      · rw [if_pos hm] at hc
        simp [enqueueLoop_no_fetch] at hc
        exact hc
      · rw [if_neg hm] at hc
        simp [enqueueLoop_no_fetch] at hc
        exact hc
    · rw [if_neg hr] at hc
      simp at hc
      exact hc

/-- C3: in every reachable state of the scanner loop (equivalently, on every
loop iteration, whatever the state), a cycle's rewards are fetched, its
report opened, or one of its payment jobs enqueued only when the candidate
cycle satisfies `payment_cycle ≤ current_cycle - (freeze_cycles + 1)`; the
only enqueue a non-payable iteration can perform is the exit sentinel, so no
payment job for a cycle violating the bound is ever enqueued. -/
theorem no_unpayable_cycle_processed (cfg : ScanCfg) (env : ScanEnv) (fs : FS) (s : ScanState) :
    (∀ c : Int, Event.fetchRewards c ∈ (producerIter cfg env fs s).events →
        c ≤ env.current_cycle - (env.nb_freeze_cycle + 1))
    ∧ (∀ p : String, Event.reportOpen p ∈ (producerIter cfg env fs s).events →
        s.payment_cycle ≤ env.current_cycle - (env.nb_freeze_cycle + 1))
    ∧ (∀ item : PaymentItem, Event.enqueue item ∈ (producerIter cfg env fs s).events →
        item.type ≠ EXIT_PAYMENT_TYPE →
        s.payment_cycle ≤ env.current_cycle - (env.nb_freeze_cycle + 1)) := by
  by_cases h1 : payment_dir_c cfg.payments_dir s.payment_cycle ∈ fs.dirs
  · unfold producerIter
    simp [h1]
  · by_cases h2 : s.payment_cycle ≤ env.current_cycle - (env.nb_freeze_cycle + 1)
    · by_cases h3 : s.queue.length < BUF_SIZE
      · rw [producerIter_process cfg env fs s h1 h2 h3]
        refine ⟨?_, ?_, ?_⟩
        · intro c hc
          rw [processCycle_fetch_cycle cfg env fs s c hc]
          exact h2
        · intro p _
          exact h2
        · intro item _ _
          exact h2
      · unfold producerIter
        simp [h1, h2, h3]
    · unfold producerIter
      by_cases h4 : cfg.run_mode = RunMode.PENDING
      · simp only [if_neg h1, if_neg h2, if_pos h4]
        refine ⟨by simp, by simp, ?_⟩
        intro item hmem hne
        simp at hmem
        subst hmem
        exact absurd rfl hne
      · by_cases h5 : env.stopped_during_wait
        · simp only [if_neg h1, if_neg h2, if_neg h4, if_pos h5]
          refine ⟨by simp, by simp, ?_⟩
          intro item hmem hne
          simp at hmem
          subst hmem
          exact absurd rfl hne
        · simp only [if_neg h1, if_neg h2, if_neg h4, if_neg h5]
          simp

/-- C7: on a payable cycle whose total reward is zero, the scanner advances to
the next cycle leaving the queue untouched; the iteration's whole trace is
the reward fetch and the reward calculation, so no report event, no enqueue
and no payment-calculator invocation occur. -/
theorem zero_reward_cycle_skipped (cfg : ScanCfg) (env : ScanEnv) (fs : FS) (s : ScanState)
    (hdir : payment_dir_c cfg.payments_dir s.payment_cycle ∉ fs.dirs)
    (hpay : s.payment_cycle ≤ env.current_cycle - (env.nb_freeze_cycle + 1))
    (hq : s.queue.length < BUF_SIZE)
    (ht : env.total_rewards s.payment_cycle = 0) :
    producerIter cfg env fs s =
      { state := { payment_cycle := s.payment_cycle + 1, queue := s.queue },
        events := [Event.fetchRewards s.payment_cycle, Event.calcRewards s.payment_cycle],
        halted := false } := by
  rw [producerIter_process cfg env fs s hdir hpay hq]
  unfold processCycle
  rw [if_pos ht]

/-- C9 (amended): when the payments directory `<payments_dir>/<cycle>` for the
candidate cycle already exists, the scanner treats the cycle as already
processed and advances to the next cycle; the iteration's only event is the
warning, so no rewards are fetched, no report is written and no job is
enqueued.  (The code's line 72 tests the payments directory, not the
reports directory as the spec sentence has it.) -/
theorem payment_dir_skip (cfg : ScanCfg) (env : ScanEnv) (fs : FS) (s : ScanState)
    (hdir : payment_dir_c cfg.payments_dir s.payment_cycle ∈ fs.dirs) :
    producerIter cfg env fs s =
      { state := { payment_cycle := s.payment_cycle + 1, queue := s.queue },
        events := [Event.warnLogged "Payment directory for cycle is present. No payment will be run for the cycle"],
        halted := false } := by
  unfold producerIter
  rw [if_pos hdir]

/-- C8 (amended): on a processed cycle the report file is opened and its
header rows written before any payment item is enqueued: when the open
succeeds the iteration's first six events are the fetch, the reward
calculation, the payment calculation, the report open, the column-header
row and the baker row, and every enqueue event sits strictly after all six;
the write is only completed (file closed) after the per-item rows and
enqueues, not before them.  When the report open fails, the exception
handler leaves the state untouched: no job is enqueued, no marker is
written, and the unchanged cycle counter means the cycle is retried on the
next pass. -/
theorem report_opened_before_enqueue (cfg : ScanCfg) (env : ScanEnv) (fs : FS) (s : ScanState)
    (hdir : payment_dir_c cfg.payments_dir s.payment_cycle ∉ fs.dirs)
    (hpay : s.payment_cycle ≤ env.current_cycle - (env.nb_freeze_cycle + 1))
    (hq : s.queue.length < BUF_SIZE)
    (ht : env.total_rewards s.payment_cycle ≠ 0) :
    (env.report_open_ok = true →
      (producerIter cfg env fs s).events.take 6
          = [Event.fetchRewards s.payment_cycle, Event.calcRewards s.payment_cycle,
             Event.calcPayments s.payment_cycle,
             Event.reportOpen (cfg.reports_dir ++ "/" ++ toString s.payment_cycle ++ ".csv"),
             Event.reportHeader (cfg.reports_dir ++ "/" ++ toString s.payment_cycle ++ ".csv"),
             Event.reportRow (cfg.reports_dir ++ "/" ++ toString s.payment_cycle ++ ".csv")
               cfg.baking_address "B" 1 (env.total_rewards s.payment_cycle) 0
               (env.total_rewards s.payment_cycle) 0]
      ∧ (∀ (j : Nat) (item : PaymentItem),
          (producerIter cfg env fs s).events.get? j = some (Event.enqueue item) → 5 < j))
    ∧ (env.report_open_ok = false →
      (producerIter cfg env fs s).state = s
      ∧ (∀ item : PaymentItem, Event.enqueue item ∉ (producerIter cfg env fs s).events)
      ∧ (∀ p : String, Event.writeMarker p ∉ (producerIter cfg env fs s).events)) := by
  rw [producerIter_process cfg env fs s hdir hpay hq]
  unfold processCycle
  rw [if_neg ht]
  by_cases hr : env.report_open_ok
  · rw [if_pos hr]
    constructor
    · intro _
      by_cases hm : cfg.run_mode = RunMode.ONETIME
      · rw [if_pos hm]
        refine ⟨by simp, ?_⟩
        intro j item hj
        rcases j with _ | _ | _ | _ | _ | _ | j
        · simp at hj
        · simp at hj
        · simp at hj
        · simp at hj
        · simp at hj
        · simp at hj
        · omega
      · rw [if_neg hm]
        refine ⟨by simp, ?_⟩
        intro j item hj
        rcases j with _ | _ | _ | _ | _ | _ | j
        · simp at hj
        · simp at hj
        · simp at hj
        · simp at hj
        · simp at hj
        · simp at hj
        · omega
    · intro hfalse
      rw [hr] at hfalse
      exact absurd hfalse (by simp)
  · rw [if_neg hr]
    constructor
    · intro htrue
      exact absurd htrue hr
    · intro _
      refine ⟨rfl, ?_, ?_⟩
      · intro item
        simp
      · intro p
        simp

/-- C1: on a processed cycle (payment directory absent, cycle payable, queue
not full, nonzero total reward, report open succeeds), the queue afterwards
is the old queue followed by exactly those calculator items whose ledger
marker file `<payments_dir>/<cycle>/<address>_<type>.txt` does not exist
(plus, in ONETIME mode only, the exit sentinel); every marked item produces
a skip warning; and a non-sentinel item has an enqueue event if and only if
the calculator produced it and its marker does not exist. -/
theorem scanner_enqueues_iff_unmarked (cfg : ScanCfg) (env : ScanEnv) (fs : FS) (s : ScanState)
    (hdir : payment_dir_c cfg.payments_dir s.payment_cycle ∉ fs.dirs)
    (hpay : s.payment_cycle ≤ env.current_cycle - (env.nb_freeze_cycle + 1))
    (hq : s.queue.length < BUF_SIZE)
    (ht : env.total_rewards s.payment_cycle ≠ 0)
    (hr : env.report_open_ok = true) :
    (producerIter cfg env fs s).state.queue =
      s.queue
        ++ (env.payments s.payment_cycle).filter
            (fun it => decide (payment_file_name cfg.payments_dir s.payment_cycle it.address it.type ∉ fs.files))
        ++ (if cfg.run_mode = RunMode.ONETIME then [create_exit_payment] else [])
    ∧ (∀ item ∈ env.payments s.payment_cycle,
        payment_file_name cfg.payments_dir s.payment_cycle item.address item.type ∈ fs.files →
          Event.skipMarked (payment_file_name cfg.payments_dir s.payment_cycle item.address item.type)
            ∈ (producerIter cfg env fs s).events)
    ∧ (∀ item : PaymentItem, item.type ≠ EXIT_PAYMENT_TYPE →
        (Event.enqueue item ∈ (producerIter cfg env fs s).events ↔
          item ∈ env.payments s.payment_cycle ∧
            payment_file_name cfg.payments_dir s.payment_cycle item.address item.type ∉ fs.files)) := by
  rw [producerIter_process cfg env fs s hdir hpay hq]
  unfold processCycle
  rw [if_neg ht, if_pos hr]
  by_cases hm : cfg.run_mode = RunMode.ONETIME
  · simp only [hm, if_pos]
    refine ⟨?_, ?_, ?_⟩
    · simp [enqueueLoop_queue]
    · intro item hitem hmark
      simp [List.mem_append, List.mem_cons]
      exact enqueueLoop_skip_mem cfg env fs _ _ _ _ item hitem hmark
    · intro item hne
      have hsent : ¬(item = create_exit_payment) := by
        intro h
        apply hne
        rw [h]
        rfl
      simp [List.mem_append, List.mem_cons, enqueueLoop_enqueue_mem, hsent]
  · simp only [hm, if_neg]
    refine ⟨?_, ?_, ?_⟩
    · simp [enqueueLoop_queue, hm]
    · intro item hitem hmark
      simp [List.mem_append, List.mem_cons, hm]
      exact enqueueLoop_skip_mem cfg env fs _ _ _ _ item hitem hmark
    · intro item hne
      simp [List.mem_append, List.mem_cons, enqueueLoop_enqueue_mem, hm]

/-- The consumer loop keeps running after any non-sentinel job, whatever the
transfer command's exit status. -/
theorem consumerStep_looping (ccfg : ConsCfg) (fs : FS) (item : PaymentItem) (rc : Int)
    (h : item.type ≠ EXIT_PAYMENT_TYPE) :
    (consumerStep ccfg fs item rc).looping = true := by
  unfold consumerStep
  rw [if_neg h]
  by_cases hrc : rc = 0
  · rw [if_pos hrc]
  · rw [if_neg hrc]

/-- C2: for a dequeued non-sentinel job, the executor writes the ledger
marker file `<payments_dir>/<cycle>/<address>_<type>.txt` if and only if the
external transfer command exits with status zero: on zero exit the marker is
created (and the marker-write event occurs); on nonzero exit the filesystem
is unchanged, no marker-write event occurs and a warning is logged; in both
cases the loop keeps running, and the run over `item :: rest` continues into
`rest`, so subsequent queued items are still processed. -/
theorem executor_marker_iff_success (ccfg : ConsCfg) (fs : FS) (item : PaymentItem)
    (rc : Int) (rcf : PaymentItem → Int) (rest : List PaymentItem)
    (h : item.type ≠ EXIT_PAYMENT_TYPE) :
    ((rc = 0 →
        (consumerStep ccfg fs item rc).fs.files
            = insertFile fs.files (payment_file_name ccfg.payments_dir item.cycle item.address item.type)
        ∧ Event.writeMarker (payment_file_name ccfg.payments_dir item.cycle item.address item.type)
            ∈ (consumerStep ccfg fs item rc).events)
    ∧ (rc ≠ 0 →
        (consumerStep ccfg fs item rc).fs = fs
        ∧ (∀ p : String, Event.writeMarker p ∉ (consumerStep ccfg fs item rc).events)
        ∧ Event.warnLogged "Reward NOT paid: Reason client failed!"
            ∈ (consumerStep ccfg fs item rc).events)
    ∧ (consumerStep ccfg fs item rc).looping = true
    ∧ consumerRun ccfg rcf fs (item :: rest)
        = ((consumerRun ccfg rcf (consumerStep ccfg fs item (rcf item)).fs rest).1,
            (consumerStep ccfg fs item (rcf item)).events
              ++ (consumerRun ccfg rcf (consumerStep ccfg fs item (rcf item)).fs rest).2)) := by
  refine ⟨?_, ?_, consumerStep_looping ccfg fs item rc h, ?_⟩
  · intro hrc
    unfold consumerStep
    rw [if_neg h, if_pos hrc]
    exact ⟨rfl, by simp⟩
  · intro hrc
    unfold consumerStep
    rw [if_neg h, if_neg hrc]
    refine ⟨rfl, ?_, by simp⟩
    intro p
    simp
  · conv_lhs => rw [consumerRun]
    rw [if_pos (consumerStep_looping ccfg fs item (rcf item) h)]

/-- Witness for C2 at concrete inputs: itemB paid with exit status 0 gets its
marker; with exit status 1 the filesystem is unchanged, the warning is
logged, and the run continues into the rest of the queue. -/
theorem executor_marker_iff_success_witness :
    ((consumerStep ccfgW fs0 itemB 0).fs.files = [payment_file_name "./payments" 5 "addrB" "D"]
    ∧ Event.writeMarker (payment_file_name "./payments" 5 "addrB" "D")
        ∈ (consumerStep ccfgW fs0 itemB 0).events)
    ∧ ((consumerStep ccfgW fs0 itemB 1).fs = fs0
    ∧ Event.warnLogged "Reward NOT paid: Reason client failed!"
        ∈ (consumerStep ccfgW fs0 itemB 1).events)
    ∧ consumerRun ccfgW (fun _ => 1) fs0 [itemB, itemA]
        = (fs0, (consumerStep ccfgW fs0 itemB 1).events
            ++ (consumerRun ccfgW (fun _ => 1) fs0 [itemA]).2) := by
  have h0 := executor_marker_iff_success ccfgW fs0 itemB 0 (fun _ => 1) [itemA] (by decide)
  have h1 := executor_marker_iff_success ccfgW fs0 itemB 1 (fun _ => 1) [itemA] (by decide)
  refine ⟨⟨((h0.1 rfl).1).trans (by decide), (h0.1 rfl).2⟩,
    ⟨(h1.2.1 (by decide)).1, (h1.2.1 (by decide)).2.2⟩, ?_⟩
  exact (h1.2.2.2).trans (by decide)

/-- C4 (amended): the executor does not consult the ledger marker at dequeue
time; for every dequeued non-sentinel job it invokes the external transfer
unconditionally, marker present or not — duplicate-payment protection rests
on the scanner's enqueue-time check alone. -/
theorem executor_invokes_transfer_unconditionally (ccfg : ConsCfg) (fs : FS)
    (item : PaymentItem) (rc : Int) (h : item.type ≠ EXIT_PAYMENT_TYPE) :
    Event.invokeTransfer item.payment ccfg.key_name item.address
      ∈ (consumerStep ccfg fs item rc).events := by
  unfold consumerStep
  rw [if_neg h]
  by_cases hrc : rc = 0
  · rw [if_pos hrc]
    simp
  · rw [if_neg hrc]
    simp

/-- Witness for the amended C4: itemA's transfer is invoked even though
`fsB` already holds itemA's marker. -/
theorem executor_invokes_transfer_unconditionally_witness :
    Event.invokeTransfer 54 "key" "addrA" ∈ (consumerStep ccfgW fsB itemA 0).events :=
  executor_invokes_transfer_unconditionally ccfgW fsB itemA 0 (by decide)

/-- Counterexample to C4 as stated: the marker for (cycle 5, addrA, "D")
already exists in `fsB`, yet the executor still invokes the external
transfer for itemA (and on success rewrites the marker) instead of skipping
the job as a no-op. -/
theorem dequeue_marker_check_counterexample :
    payment_file_name "./payments" 5 "addrA" "D" ∈ fsB.files
    ∧ Event.invokeTransfer 54 "key" "addrA" ∈ (consumerStep ccfgW fsB itemA 0).events
    ∧ Event.writeMarker (payment_file_name "./payments" 5 "addrA" "D")
        ∈ (consumerStep ccfgW fsB itemA 0).events := by
  decide

/-- C5: in run mode ONETIME, once a cycle is fully processed the producer
returns (`halted`) and its iteration trace contains exactly one enqueue of
the exit sentinel; and an executor that dequeues a sentinel-typed item
terminates its loop with no transfer invocation, no marker write and an
unchanged filesystem (its step produces no events at all). -/
theorem onetime_single_sentinel (cfg : ScanCfg) (env : ScanEnv) (fs : FS) (s : ScanState)
    (ccfg : ConsCfg) (cfs : FS) (sitem : PaymentItem) (src : Int)
    (hdir : payment_dir_c cfg.payments_dir s.payment_cycle ∉ fs.dirs)
    (hpay : s.payment_cycle ≤ env.current_cycle - (env.nb_freeze_cycle + 1))
    (hq : s.queue.length < BUF_SIZE)
    (ht : env.total_rewards s.payment_cycle ≠ 0)
    (hr : env.report_open_ok = true)
    (hm : cfg.run_mode = RunMode.ONETIME)
    (hne : ∀ it ∈ env.payments s.payment_cycle, it.type ≠ EXIT_PAYMENT_TYPE)
    (hsit : sitem.type = EXIT_PAYMENT_TYPE) :
    (producerIter cfg env fs s).halted = true
    ∧ ((producerIter cfg env fs s).events).count (Event.enqueue create_exit_payment) = 1
    ∧ consumerStep ccfg cfs sitem src = { fs := cfs, events := [], looping := false } := by
  rw [producerIter_process cfg env fs s hdir hpay hq]
  unfold processCycle
  rw [if_neg ht, if_pos hr, if_pos hm]
  refine ⟨rfl, ?_, ?_⟩
  · have hno : Event.enqueue create_exit_payment
        ∉ (enqueueLoop cfg env fs s.payment_cycle
            (cfg.reports_dir ++ "/" ++ toString s.payment_cycle ++ ".csv")
            (env.payments s.payment_cycle) s.queue).2 := by
      intro hmem
      have h2 := (enqueueLoop_enqueue_mem cfg env fs _ _ _ _ _).mp hmem
      exact (hne _ h2.1) rfl
    simp [List.count_append, List.count_cons, List.count_eq_zero.mpr hno]
  · unfold consumerStep
    rw [if_pos hsit]

/-- Witness for C5 at concrete inputs (ONETIME configuration `cfgD`). -/
theorem onetime_single_sentinel_witness :
    (producerIter cfgD envB fsB sB).halted = true
    ∧ ((producerIter cfgD envB fsB sB).events).count (Event.enqueue create_exit_payment) = 1
    ∧ consumerStep ccfgW fsB create_exit_payment 0 = { fs := fsB, events := [], looping := false } :=
  onetime_single_sentinel cfgD envB fsB sB ccfgW fsB create_exit_payment 0
    (by decide) (by decide) (by decide) (by decide) rfl rfl (by decide) rfl

/-- C6: startup validates each share table: if the founders map's or the
owners map's share values do not sum to 1, `mainSetup` returns the raised
configuration error — and hence no `SystemCfg`, so no producer or consumer
thread is ever started; if both sums equal 1, validation passes and setup
returns the running configuration. -/
theorem share_sum_validation (args : Args) (fm om : List (String × ℚ)) :
    (((fm.map Prod.snd).sum ≠ 1 ∨ (om.map Prod.snd).sum ≠ 1) →
        ∃ msg, mainSetup args fm om = Except.error msg)
    ∧ ((fm.map Prod.snd).sum = 1 → (om.map Prod.snd).sum = 1 →
        ∃ scfg, mainSetup args fm om = Except.ok scfg) := by
  unfold mainSetup validate_map_share_sum
  by_cases hf : (fm.map Prod.snd).sum = 1
  · by_cases ho : (om.map Prod.snd).sum = 1
    · simp [hf, ho]
    · simp [hf, ho]
  · simp [hf]

/-- Witness for C6: a founders map summing to 2 aborts startup; maps summing
to 1 pass validation. -/
theorem share_sum_validation_witness :
    (∃ msg, mainSetup argsW fmBad omGood = Except.error msg)
    ∧ (∃ scfg, mainSetup argsW fmGood omGood = Except.ok scfg) :=
  ⟨(share_sum_validation argsW fmBad omGood).1 (Or.inl (by norm_num [fmBad])),
   (share_sum_validation argsW fmGood omGood).2 (by norm_num [fmGood]) (by norm_num [omGood])⟩

/-- C10: with the dry-run flag set, any successful startup forces the
consumer count to 0 (no consumer thread names), redirects the reports
directory to "./dry", and therefore the concatenated consumer trace of the
whole run is empty: the external transfer mechanism is never invoked and no
ledger marker is ever written under the payments directory. -/
theorem dry_run_no_transfers (args : Args) (fm om : List (String × ℚ)) (scfg : SystemCfg)
    (hd : args.dry_run = true)
    (h : mainSetup args fm om = Except.ok scfg) :
    scfg.nb_consumers = 0
    ∧ scfg.reports_dir = "./dry"
    ∧ scfg.consumer_names = []
    ∧ (∀ (jobs : Nat → List PaymentItem) (rc : PaymentItem → Int) (fs : FS),
        allConsumerEvents scfg jobs rc fs = []) := by
  unfold mainSetup validate_map_share_sum at h
  by_cases hf : (fm.map Prod.snd).sum = 1
  · by_cases ho : (om.map Prod.snd).sum = 1
    · simp [hf, ho, hd] at h
      subst h
      refine ⟨rfl, rfl, by simp, ?_⟩
      intro jobs rc fs
      simp [allConsumerEvents]
    · simp [hf, ho] at h
  · simp [hf] at h

/-- Witness for C10 at concrete dry-run arguments. -/
theorem dry_run_no_transfers_witness :
    cfgDry.nb_consumers = 0 ∧ cfgDry.reports_dir = "./dry" ∧ cfgDry.consumer_names = []
    ∧ allConsumerEvents cfgDry (fun _ => [itemA]) (fun _ => 0) fs0 = [] := by
  have hok : mainSetup argsD fmGood omGood = Except.ok cfgDry := by
    norm_num [mainSetup, validate_map_share_sum, fmGood, omGood, argsD, argsW, cfgDry,
      NB_CONSUMERS]
  have h := dry_run_no_transfers argsD fmGood omGood cfgDry rfl hok
  exact ⟨h.1, h.2.1, h.2.2.1, h.2.2.2 _ _ _⟩

/-- Witness for C1 at scenario B: addrA's marker exists, addrB's does not;
the iteration enqueues exactly addrB's item, warns about addrA's, and never
enqueues addrA's. -/
theorem scanner_enqueues_iff_unmarked_witness :
    (producerIter cfgB envB fsB sB).state.queue = [itemB]
    ∧ Event.skipMarked (payment_file_name "./payments" 5 "addrA" "D")
        ∈ (producerIter cfgB envB fsB sB).events
    ∧ Event.enqueue itemB ∈ (producerIter cfgB envB fsB sB).events
    ∧ Event.enqueue itemA ∉ (producerIter cfgB envB fsB sB).events := by
  have h := scanner_enqueues_iff_unmarked cfgB envB fsB sB (by decide) (by decide)
    (by decide) (by decide) rfl
  refine ⟨h.1.trans (by decide), h.2.1 itemA (by decide) (by decide),
    (h.2.2 itemB (by decide)).mpr ⟨by decide, by decide⟩, ?_⟩
  intro hmem
  have h2 := (h.2.2 itemA (by decide)).mp hmem
  exact h2.2 (by decide)

/-- Witness for C3: a concrete iteration that does enqueue a payment job,
whose candidate cycle therefore satisfies the payable bound. -/
theorem no_unpayable_cycle_processed_witness :
    Event.enqueue itemB ∈ (producerIter cfgB envB fsB sB).events
    ∧ sB.payment_cycle ≤ envB.current_cycle - (envB.nb_freeze_cycle + 1) :=
  ⟨by decide, (no_unpayable_cycle_processed cfgB envB fsB sB).2.2 itemB (by decide) (by decide)⟩

/-- Witness for C7: zero total rewards at cycle 5 advance the counter to 6
with no report, no enqueue and no payment calculation. -/
theorem zero_reward_cycle_skipped_witness :
    producerIter cfgB envZ fsB sB =
      { state := { payment_cycle := 6, queue := [] },
        events := [Event.fetchRewards 5, Event.calcRewards 5],
        halted := false } :=
  (zero_reward_cycle_skipped cfgB envZ fsB sB (by decide) (by decide) (by decide) rfl).trans
    (by decide)

/-- Witness for the amended C9: with "./payments/7" present the iteration
only warns and advances to cycle 8. -/
theorem payment_dir_skip_witness :
    producerIter cfgB envB fsP sP =
      { state := { payment_cycle := 8, queue := [] },
        events := [Event.warnLogged "Payment directory for cycle is present. No payment will be run for the cycle"],
        halted := false } :=
  (payment_dir_skip cfgB envB fsP sP (by decide)).trans (by decide)

/-- Witness for the amended C8: the report open, header row and baker row
are among the first six events and the enqueue of itemB sits at index 9,
after all of them. -/
theorem report_opened_before_enqueue_witness :
    (producerIter cfgB envB fsB sB).events.take 6
      = [Event.fetchRewards 5, Event.calcRewards 5, Event.calcPayments 5,
         Event.reportOpen "./reports/5.csv", Event.reportHeader "./reports/5.csv",
         Event.reportRow "./reports/5.csv" "baker" "B" 1 100 0 100 0]
    ∧ (producerIter cfgB envB fsB sB).events.get? 9 = some (Event.enqueue itemB)
    ∧ 5 < 9 := by
  have h := report_opened_before_enqueue cfgB envB fsB sB (by decide) (by decide)
    (by decide) (by decide)
  exact ⟨((h.1 rfl).1).trans (by decide), by decide, (h.1 rfl).2 9 itemB (by decide)⟩

/-- Counterexample to C8 as stated: on the processed cycle 5 the report
close (the completion of the report write) is in the trace, but itemB's
enqueue occurs strictly before it — the report write is not completed
before the cycle's items are enqueued, it is only begun. -/
theorem report_completed_before_enqueue_counterexample :
    Event.reportClose "./reports/5.csv" ∈ (producerIter cfgB envB fsB sB).events
    ∧ Event.enqueue itemB ∈ ((producerIter cfgB envB fsB sB).events.takeWhile
        (fun e => decide (e ≠ Event.reportClose "./reports/5.csv"))) := by
  decide

/-- Counterexample to C9 as stated: the report directory "./reports/10" for
candidate cycle 10 exists in `fs9`, yet the scanner does not treat the
cycle as processed: it fetches the rewards, opens the report and enqueues
item9.  The existence check of main.py line 72 is on the payments
directory, not the reports directory. -/
theorem report_dir_check_counterexample :
    payment_dir_c "./reports" 10 ∈ fs9.dirs
    ∧ Event.fetchRewards 10 ∈ (producerIter cfgB env9 fs9 s9).events
    ∧ Event.reportOpen "./reports/10.csv" ∈ (producerIter cfgB env9 fs9 s9).events
    ∧ Event.enqueue item9 ∈ (producerIter cfgB env9 fs9 s9).events
    ∧ (producerIter cfgB env9 fs9 s9).state.queue = [item9] := by
  decide

end TRD



